import Mathlib

/-!
Verification development for the connect-eventstream repository.

The development shallowly embeds the two source files
`src/ConnectEventStream.ts` and `src/stream/ChannelWritable.ts`.
The handler method `ConnectEventStream.run` is modelled as a pure
function from the request (with the negotiation and proxy-detection
collaborator results as fields) to a trace of the observable actions it
performs on the response and on its collaborators, or to an error when
the JavaScript would throw.  `ChannelWritable._write` is modelled as a
function from the settled outcome of `publishEvent` to the value passed
to the stream callback.  `getChannelWritable` is modelled together with
the JavaScript property-lookup semantics of the plain object literal it
uses as a cache (bracket access consults `Object.prototype` when no own
property is present).
-/

/-- One event record as passed to the frame codec by `run`
(`encodeEvent({event, data})` in `ConnectEventStream.ts`). -/
structure SseEvent where
  event : String
  data : String
deriving DecidableEq, Repr

/-- Modelled from the spec: the Frame Codec (`src/utils/textEventStream.ts`,
not present under `src/`) renders one event record into one wire frame,
one-to-one.  The frame is represented abstractly by the rendered event's
type and data. -/
structure Frame where
  eventType : String
  data : String
deriving DecidableEq, Repr

/-- Modelled from the spec: `encodeEvent` from `utils/textEventStream`,
`encode(event) → frame-text`, one frame per event record. -/
def encodeEvent (e : SseEvent) : Frame :=
  { eventType := e.event, data := e.data }

/-- Modelled from the spec: `joinEncodedEvents` concatenates frames
preserving order; represented as the ordered list of frames forming
one write chunk. -/
def joinEncodedEvents (frames : List Frame) : List Frame := frames

/-- Modelled from the spec: `KEEP_ALIVE_TIMEOUT` from `src/constants.ts`
(not present under `src/`) is the fixed keep-alive interval; its concrete
value does not matter to any claim, a stand-in value is used. -/
def KEEP_ALIVE_TIMEOUT : Nat := 20000

/-- The grip flags populated on the request by the proxy-detection
collaborator (`req.grip` of `@fanoutio/connect-grip`). -/
structure Grip where
  isProxied : Bool
  needsSigned : Bool
  isSigned : Bool
deriving DecidableEq, Repr

/-- The `channelsFromQuery` option value: in TypeScript it is
`boolean | string` (`readChannelsFromQuery` in `run`). -/
inductive ChannelsFromQuery where
  | bool (b : Bool)
  | str (s : String)
deriving DecidableEq, Repr

/-- The `IHandlerOptions` shape consumed by `run`
(`eventStreamOptions?.channels`, `eventStreamOptions?.channelsFromQuery`). -/
structure IHandlerOptions where
  channels : Option (List String)
  channelsFromQuery : Option ChannelsFromQuery
deriving DecidableEq, Repr

/-- The incoming request as `run` observes it.
`acceptsEventStream` is the result of the external negotiation
collaborator (`accepts(req).types('text/event-stream')` truthiness);
`grip` is `req.grip` before `run` begins; `gripAfterRun` is the flags the
proxy-detection collaborator `this.connectGrip.run(req, res)` populates
when invoked; `lastEventId` is the flattened value of the
`last-event-id` header (`flattenHttpHeaders` of `utils/http`, not under
`src/`, is modelled as already applied); `query` is the parsed URL's
search parameters in order. -/
structure Request where
  acceptsEventStream : Bool
  grip : Option Grip
  gripAfterRun : Grip
  lastEventId : Option String
  query : List (String × String)
deriving DecidableEq, Repr

/-- One observable action performed by `run` on the response object or a
collaborator, in program order. -/
inductive Act where
  | setResStatus (code : Nat)
  | setReqStatus (code : Nat)
  | runConnectGrip
  | setHeader (name value : String)
  | write (chunk : List Frame)
  | resEnd (body : Option String)
  | gripStartInstruct
  | gripSetHoldStream
  | gripAddChannel (channels : List String)
  | gripSetKeepAlive (frame : Frame) (timeout : Nat)
  | subscribe (channels : List String)
deriving DecidableEq, Repr

/-- The way `run` can fail with a thrown `TypeError` instead of producing
a response: dereferencing the never-assigned `this.connectGrip`. -/
inductive RunErr where
  | connectGripUndefined
deriving DecidableEq, Repr

/-- The part of the handler's state `run` reads: whether the field
`connectGrip` was assigned in the constructor. -/
structure Handler where
  connectGrip : Option Unit
deriving DecidableEq, Repr

/-- The constructor parameter shapes
(`null | GripPublisherSpec | IGripEventStreamConfig`). -/
inductive CtorParams where
  | nullParam
  | gripSpec
  | configWithGrip
  | configWithoutGrip
deriving DecidableEq, Repr

/-- The constructor's `connectGrip` assignment (`ConnectEventStream.ts`
lines 41-75): `gripParam` is `params.grip` when that is non-null,
otherwise `params` itself; `this.connectGrip` is assigned exactly when
`gripParam != null`, i.e. for every non-null constructor parameter. -/
def ctorConnectGrip : CtorParams → Option Unit
  | CtorParams.nullParam => none
  | CtorParams.gripSpec => some ()
  | CtorParams.configWithGrip => some ()
  | CtorParams.configWithoutGrip => some ()

/-- The proxy-detection step of `run`: when `req.grip == null` it invokes
`this.connectGrip.run(req, res)`, which throws a `TypeError` when
`this.connectGrip` was never assigned; then `grip` is read from the
request. -/
def detectGrip (cg : Option Unit) (req : Request) : Except RunErr (List Act × Grip) :=
  match req.grip with
  | some g => Except.ok ([], g)
  | none =>
    match cg with
    | some _ => Except.ok ([Act.runConnectGrip], req.gripAfterRun)
    | none => Except.error RunErr.connectGripUndefined

/-- The resolved query parameter name: `typeof readChannelsFromQuery ===
'string' ? readChannelsFromQuery : 'channel'`. -/
def channelParamNameOf : ChannelsFromQuery → String
  | ChannelsFromQuery.str s => s
  | ChannelsFromQuery.bool _ => "channel"

/-- JavaScript string coercion of the `readChannelsFromQuery` value, as
used by the string concatenation building the no-channels message. -/
def channelsFromQueryToString : ChannelsFromQuery → String
  | ChannelsFromQuery.bool true => "true"
  | ChannelsFromQuery.bool false => "false"
  | ChannelsFromQuery.str s => s

/-- The value `eventStreamOptions?.channels?.slice() ?? []`. -/
def configuredChannels (opts : Option IHandlerOptions) : List String :=
  (opts.bind IHandlerOptions.channels).getD []

/-- The value `eventStreamOptions?.channelsFromQuery ?? false`. -/
def readChannelsFromQueryOf (opts : Option IHandlerOptions) : ChannelsFromQuery :=
  (opts.bind IHandlerOptions.channelsFromQuery).getD (ChannelsFromQuery.bool false)

/-- The value `parsedUrl.searchParams.getAll(name)`: all query values
carrying the given name, in query order. -/
def queryGetAll (query : List (String × String)) (name : String) : List String :=
  (query.filter fun p => p.1 = name).map Prod.snd

/-- The channel-merging loop of `run`: `for (const value of queryParams)
{ if (!channels.includes(value)) { channels.push(value); } }`. -/
def addUniqueChannels (channels : List String) (values : List String) : List String :=
  values.foldl (fun acc v => if acc.contains v then acc else acc ++ [v]) channels

/-- The channel resolution of `run` (`ConnectEventStream.ts` lines
224-236): start from the configured channels; when none are configured
or `readChannelsFromQuery !== false`, merge in the query values of the
resolved parameter name. -/
def resolveChannels (opts : Option IHandlerOptions) (req : Request) : List String :=
  if (configuredChannels opts).length = 0 ∨
      readChannelsFromQueryOf opts ≠ ChannelsFromQuery.bool false then
    addUniqueChannels (configuredChannels opts)
      (queryGetAll req.query (channelParamNameOf (readChannelsFromQueryOf opts)))
  else
    configuredChannels opts

/-- The body of the 400 response for an empty resolved channel set.
Note the source appends `readChannelsFromQuery` itself (string-coerced),
not the resolved `channelParamName`. -/
def noChannelsMessage (rcfq : ChannelsFromQuery) : String :=
  if rcfq ≠ ChannelsFromQuery.bool false then
    "No specified channels. Specify the channels to read from using the ?"
      ++ channelsFromQueryToString rcfq ++ " query parameter."
  else
    "No specified channels."

/-- The synthetic handshake event `{event: 'stream-open', data: ''}`. -/
def streamOpenEvent : SseEvent := { event := "stream-open", data := "" }

/-- The synthetic heartbeat event `{event: 'keep-alive', data: ''}`. -/
def keepAliveEvent : SseEvent := { event := "keep-alive", data := "" }

/-- The continuation of `run` after negotiation and proxy detection
(`ConnectEventStream.ts` lines 203-291), producing the trace of actions:
signature validation, the `last-event-id` check, channel resolution, the
handshake, and the proxy-hold or direct-pipe tail. -/
def runAfterGrip (pa : List Act) (grip : Grip) (opts : Option IHandlerOptions)
    (req : Request) : List Act :=
  if grip.isProxied && (grip.needsSigned && !grip.isSigned) then
    pa ++ [Act.setReqStatus 403, Act.resEnd (some "GRIP Signature Invalid.\n")]
  else if req.lastEventId = some "error" then
    pa ++ [Act.setResStatus 400,
      Act.resEnd (some "last-event-id header may not be 'error'.\n")]
  else if (resolveChannels opts req).length = 0 then
    pa ++ [Act.setResStatus 400,
      Act.resEnd (some (noChannelsMessage (readChannelsFromQueryOf opts) ++ "\n"))]
  else if grip.isProxied then
    pa ++ [Act.setResStatus 200,
      Act.gripStartInstruct,
      Act.gripSetHoldStream,
      Act.gripAddChannel (resolveChannels opts req),
      Act.gripSetKeepAlive (encodeEvent keepAliveEvent) KEEP_ALIVE_TIMEOUT,
      Act.write (joinEncodedEvents [encodeEvent streamOpenEvent]),
      Act.resEnd none]
  else
    pa ++ [Act.setResStatus 200,
      Act.setHeader "Connection" "Transfer-Encoding",
      Act.setHeader "Transfer-Encoding" "chunked",
      Act.write (joinEncodedEvents [encodeEvent streamOpenEvent]),
      Act.subscribe (resolveChannels opts req)]

/-- The handler method `ConnectEventStream.run`: negotiation first
(406 on failure), then proxy detection, then `runAfterGrip`. -/
def run (h : Handler) (req : Request) (opts : Option IHandlerOptions) :
    Except RunErr (List Act) :=
  if !req.acceptsEventStream then
    Except.ok [Act.setResStatus 406, Act.resEnd (some "Not Acceptable.\n")]
  else
    (detectGrip h.connectGrip req).map fun pg => runAfterGrip pg.1 pg.2 opts req

/-- A JavaScript `Error` object, identified by its message. -/
structure JsError where
  message : String
deriving DecidableEq, Repr

/-- A value thrown by a rejected `publishEvent` call: either an `Error`
instance or some other value (carried here by its string coercion). -/
inductive Thrown where
  | errObj (e : JsError)
  | nonError (coerced : String)
deriving DecidableEq, Repr

/-- The coercion `ex instanceof Error ? ex : new Error(ex)` performed by
`ChannelWritable._write` on a caught value. -/
def coerceToError : Thrown → JsError
  | Thrown.errObj e => e
  | Thrown.nonError s => { message := s }

/-- Model of `ChannelWritable._write` (`ChannelWritable.ts` lines 20-39):
it awaits `this.channelPublisher.publishEvent(event)` and only then
invokes the stream callback, with no argument on resolution and with the
(coerced) failure cause on rejection.  The argument of the settled
`publishEvent` outcome makes the callback-after-settlement ordering
structural: the callback value is a function of that outcome. -/
def channelWritableWrite (publishResult : Except Thrown Unit) : Option JsError :=
  match publishResult with
  | Except.ok _ => none
  | Except.error ex => some (coerceToError ex)

/-- The property names present on `Object.prototype`, all inherited by
the object literal `{}` used as the `_channelWritables` cache. -/
def objectPrototypeProps : List String :=
  ["constructor", "hasOwnProperty", "isPrototypeOf", "propertyIsEnumerable",
   "toLocaleString", "toString", "valueOf", "__proto__",
   "__defineGetter__", "__defineSetter__", "__lookupGetter__", "__lookupSetter__"]

/-- A value readable from the `_channelWritables` object by bracket
access: a cached `ChannelWritable` instance (identified by a creation
counter) or a member inherited from `Object.prototype`. -/
inductive ChannelProp where
  | channelWritable (id : Nat)
  | inheritedMember (name : String)
deriving DecidableEq, Repr

/-- The state of the `_channelWritables` object literal: its own
properties in insertion order, plus a counter identifying the next
`ChannelWritable` instance to be constructed. -/
structure WritablesState where
  own : List (String × ChannelProp)
  nextId : Nat
deriving DecidableEq, Repr

/-- The `_channelWritables` object as initialised in the class body
(`_channelWritables: object = {}`). -/
def emptyWritables : WritablesState := { own := [], nextId := 0 }

/-- JavaScript bracket access `this._channelWritables[channel]`: an own
property if present, otherwise the member inherited from
`Object.prototype` if the key names one, otherwise `undefined` (`none`).
`v == null` in the source is true exactly on `none`, since every own
property stored is a constructed `ChannelWritable`. -/
def bracketGet (s : WritablesState) (key : String) : Option ChannelProp :=
  match s.own.lookup key with
  | some v => some v
  | none =>
    if objectPrototypeProps.contains key then some (ChannelProp.inheritedMember key)
    else none

/-- Model of `getChannelWritable` (`ConnectEventStream.ts` lines 76-81):
when `this._channelWritables[channel] == null` a new `ChannelWritable`
is constructed and stored under `channel`; the bracket read is then
returned. -/
def getChannelWritable (s : WritablesState) (channel : String) :
    ChannelProp × WritablesState :=
  match bracketGet s channel with
  | some v => (v, s)
  | none =>
    let w := ChannelProp.channelWritable s.nextId
    (w, { own := s.own ++ [(channel, w)], nextId := s.nextId + 1 })

/-- Auxiliary: a lookup that misses the first list continues in the
second. -/
theorem lookup_append_right {α β : Type} [BEq α] (l1 l2 : List (α × β)) (k : α)
    (h : l1.lookup k = none) : (l1 ++ l2).lookup k = l2.lookup k := by
  induction l1 with
  | nil => rfl
  | cons p l ih =>
    rw [List.cons_append]
    rw [List.lookup] at h ⊢
    cases hk : (k == p.1) with
    | true => simp only [hk] at h; exact Option.noConfusion h
    | false => simp only [hk] at h ⊢; exact ih h

/-- C3: the Publish Sink's write callback is invoked with no error
exactly when `publishEvent` resolved, and with an error carrying the
failure cause exactly when it rejected; a rejected publish never yields
a silent success, and the callback value is a function of the settled
outcome (so it cannot be produced before `publishEvent` settles). -/
theorem channelWritableWrite_callback_spec (r : Except Thrown Unit) :
    (channelWritableWrite r = none ↔ r = Except.ok ()) ∧
    (∀ ex : Thrown, r = Except.error ex →
      channelWritableWrite r = some (coerceToError ex)) ∧
    (∀ e : JsError, channelWritableWrite r = some e →
      ∃ ex : Thrown, r = Except.error ex ∧ e = coerceToError ex) := by
  refine ⟨?_, ?_, ?_⟩
  · cases r with
    | ok u => cases u; simp [channelWritableWrite]
    | error ex => simp [channelWritableWrite]
  · intro ex hex
    subst hex
    rfl
  · intro e he
    cases r with
    | ok u => exact Option.noConfusion he
    | error ex =>
      exact ⟨ex, rfl, (Option.some.inj he).symm⟩

/-- Witness for C3: a concrete rejected publish with a non-Error cause
fails the write with the wrapped cause. -/
theorem channelWritableWrite_callback_spec_witness :
    channelWritableWrite (Except.error (Thrown.nonError "delivery failed")) =
      some (coerceToError (Thrown.nonError "delivery failed")) :=
  (channelWritableWrite_callback_spec
    (Except.error (Thrown.nonError "delivery failed"))).2.1
    (Thrown.nonError "delivery failed") rfl

/-- C10 counterexample: the channel name `toString` names a member
inherited from `Object.prototype`, so on a fresh handler the first call
of `getChannelWritable` returns that inherited function and neither
constructs nor stores a `ChannelWritable` — the claimed memoization
contract fails at this input. -/
theorem getChannelWritable_proto_counterexample :
    getChannelWritable emptyWritables "toString" =
      (ChannelProp.inheritedMember "toString", emptyWritables) := by
  rfl

/-- C10 (amended): for every channel name that is not the name of an
`Object.prototype` member, `getChannelWritable` memoizes: a cached entry
is returned unchanged, and on a cache miss the first call constructs a
`ChannelWritable`, stores it, and every repeated call returns that
identical object without constructing another. -/
theorem getChannelWritable_memoizes_amended (s : WritablesState) (c : String)
    (hproto : c ∉ objectPrototypeProps) :
    (∀ v, s.own.lookup c = some v → getChannelWritable s c = (v, s)) ∧
    (s.own.lookup c = none →
      (getChannelWritable s c).1 = ChannelProp.channelWritable s.nextId ∧
      getChannelWritable (getChannelWritable s c).2 c =
        ((getChannelWritable s c).1, (getChannelWritable s c).2)) := by
  constructor
  · intro v hv
    simp [getChannelWritable, bracketGet, hv]
  · intro hnone
    have hbr : bracketGet s c = none := by
      simp [bracketGet, hnone, hproto]
    have h1 : getChannelWritable s c =
        (ChannelProp.channelWritable s.nextId,
         { own := s.own ++ [(c, ChannelProp.channelWritable s.nextId)],
           nextId := s.nextId + 1 }) := by
      simp [getChannelWritable, hbr]
    have hlook : (s.own ++ [(c, ChannelProp.channelWritable s.nextId)]).lookup c =
        some (ChannelProp.channelWritable s.nextId) := by
      rw [lookup_append_right _ _ _ hnone]
      simp [List.lookup]
    have hbr2 : bracketGet
        { own := s.own ++ [(c, ChannelProp.channelWritable s.nextId)],
          nextId := s.nextId + 1 } c =
        some (ChannelProp.channelWritable s.nextId) := by
      simp [bracketGet, hlook]
    refine ⟨by rw [h1], ?_⟩
    rw [h1]
    simp [getChannelWritable, hbr2]

/-- Witness for C10's amended theorem at the channel name `alpha` on a
fresh handler: the first call constructs instance 0 and stores it, the
second call returns the identical cached pair. -/
theorem getChannelWritable_memoizes_amended_witness :
    (getChannelWritable emptyWritables "alpha").1 = ChannelProp.channelWritable 0 ∧
    getChannelWritable (getChannelWritable emptyWritables "alpha").2 "alpha" =
      ((getChannelWritable emptyWritables "alpha").1,
       (getChannelWritable emptyWritables "alpha").2) :=
  (getChannelWritable_memoizes_amended emptyWritables "alpha" (by decide)).2 rfl

/-- The values the channel-merging loop appends to the configured
channels: query values not yet present, each recorded once, in
first-seen order. -/
def extraChannels (acc : List String) : List String → List String
  | [] => []
  | v :: vs =>
    if acc.contains v then extraChannels acc vs
    else v :: extraChannels (acc ++ [v]) vs

/-- Auxiliary: the merging loop equals the configured prefix followed by
the appended values. -/
theorem addUniqueChannels_eq (vs : List String) : ∀ acc : List String,
    addUniqueChannels acc vs = acc ++ extraChannels acc vs := by
  induction vs with
  | nil => intro acc; simp [addUniqueChannels, extraChannels]
  | cons v vs ih =>
    intro acc
    rw [addUniqueChannels, List.foldl_cons]
    show List.foldl _ (if acc.contains v then acc else acc ++ [v]) vs = _
    cases h : acc.contains v with
    | true =>
      rw [if_pos rfl]
      have hvs := ih acc
      rw [addUniqueChannels] at hvs
      rw [hvs]
      simp only [extraChannels, h, if_true]
    | false =>
      rw [if_neg Bool.false_ne_true]
      have hvs := ih (acc ++ [v])
      rw [addUniqueChannels] at hvs
      rw [hvs, List.append_assoc]
      simp only [extraChannels, h, if_neg Bool.false_ne_true]
      rfl

/-- Auxiliary: every appended value is a query value absent from the
starting list. -/
theorem extraChannels_mem (vs : List String) : ∀ (acc : List String) (x : String),
    x ∈ extraChannels acc vs → x ∈ vs ∧ x ∉ acc := by
  induction vs with
  | nil => intro acc x hx; simp [extraChannels] at hx
  | cons v vs ih =>
    intro acc x hx
    cases h : acc.contains v with
    | true =>
      simp only [extraChannels] at hx
      rw [h, if_pos rfl] at hx
      rcases ih acc x hx with ⟨h1, h2⟩
      exact ⟨List.mem_cons_of_mem _ h1, h2⟩
    | false =>
      simp only [extraChannels] at hx
      rw [h, if_neg Bool.false_ne_true, List.mem_cons] at hx
      rcases hx with hx | hx
      · subst hx
        refine ⟨List.mem_cons_self _ _, ?_⟩
        intro hmem
        exact absurd hmem (by simpa using h)
      · rcases ih (acc ++ [v]) x hx with ⟨h1, h2⟩
        exact ⟨List.mem_cons_of_mem _ h1,
          fun hmem => h2 (List.mem_append_left _ hmem)⟩

/-- Auxiliary: the appended values keep the query's relative order. -/
theorem extraChannels_sublist (vs : List String) : ∀ acc : List String,
    List.Sublist (extraChannels acc vs) vs := by
  induction vs with
  | nil => intro acc; simp [extraChannels]
  | cons v vs ih =>
    intro acc
    simp only [extraChannels]
    cases h : acc.contains v with
    | true =>
      rw [if_pos rfl]
      exact List.Sublist.cons _ (ih acc)
    | false =>
      rw [if_neg Bool.false_ne_true]
      exact List.Sublist.cons₂ _ (ih (acc ++ [v]))

/-- Auxiliary: the appended values contain no duplicates. -/
theorem extraChannels_nodup (vs : List String) : ∀ acc : List String,
    (extraChannels acc vs).Nodup := by
  induction vs with
  | nil => intro acc; simp [extraChannels]
  | cons v vs ih =>
    intro acc
    simp only [extraChannels]
    cases h : acc.contains v with
    | true => rw [if_pos rfl]; exact ih acc
    | false =>
      rw [if_neg Bool.false_ne_true]
      refine List.nodup_cons.mpr ⟨?_, ih (acc ++ [v])⟩
      intro hmem
      exact (extraChannels_mem vs (acc ++ [v]) v hmem).2
        (List.mem_append_right _ (List.mem_singleton.mpr rfl))

/-- The write chunks of a trace, in order. -/
def writesOf (tr : List Act) : List (List Frame) :=
  tr.filterMap fun a =>
    match a with
    | Act.write chunk => some chunk
    | _ => none

/-- The event-delivering actions of a trace: response writes and bus
subscriptions (a subscription pipes all later bus events into the
response). -/
def deliveryActs (tr : List Act) : List Act :=
  tr.filter fun a =>
    match a with
    | Act.write _ => true
    | Act.subscribe _ => true
    | _ => false

/-- Auxiliary: the proxy-detection step contributes no response action:
its action prefix is empty or the single collaborator invocation. -/
theorem detectGrip_actions (cg : Option Unit) (req : Request) (pa : List Act) (g : Grip)
    (h : detectGrip cg req = Except.ok (pa, g)) :
    pa = [] ∨ pa = [Act.runConnectGrip] := by
  unfold detectGrip at h
  cases hg : req.grip with
  | some g2 =>
    rw [hg] at h
    injection h with h1
    exact Or.inl (congrArg Prod.fst h1).symm
  | none =>
    rw [hg] at h
    cases hcg : cg with
    | some u =>
      rw [hcg] at h
      injection h with h1
      exact Or.inr (congrArg Prod.fst h1).symm
    | none =>
      rw [hcg] at h
      exact Except.noConfusion h

/-- Auxiliary: on an accepted negotiation, `run` is the continuation
after proxy detection. -/
theorem run_ok (h : Handler) (req : Request) (opts : Option IHandlerOptions)
    (pa : List Act) (g : Grip)
    (hacc : req.acceptsEventStream = true)
    (hdet : detectGrip h.connectGrip req = Except.ok (pa, g)) :
    run h req opts = Except.ok (runAfterGrip pa g opts req) := by
  unfold run
  rw [hacc, hdet]
  rfl

/-- C6: when the Accept header does not include the event-stream media
type, `run` terminates the response with status 406 and a short
plain-text body, and performs no proxy detection, no channel binding,
no write and no bus subscription. -/
theorem run_not_acceptable_406 (h : Handler) (req : Request)
    (opts : Option IHandlerOptions)
    (hacc : req.acceptsEventStream = false) :
    run h req opts =
      Except.ok [Act.setResStatus 406, Act.resEnd (some "Not Acceptable.\n")] ∧
    ∀ tr : List Act, run h req opts = Except.ok tr →
      Act.runConnectGrip ∉ tr ∧
      (∀ cs : List String, Act.subscribe cs ∉ tr) ∧
      (∀ cs : List String, Act.gripAddChannel cs ∉ tr) ∧
      (∀ chunk : List Frame, Act.write chunk ∉ tr) := by
  have h1 : run h req opts =
      Except.ok [Act.setResStatus 406, Act.resEnd (some "Not Acceptable.\n")] := by
    unfold run
    rw [hacc]
    rfl
  refine ⟨h1, ?_⟩
  intro tr htr
  rw [h1] at htr
  injection htr with h2
  subst h2
  refine ⟨by simp, fun cs => by simp, fun cs => by simp, fun chunk => by simp⟩

/-- Witness for C6 at a concrete non-accepting request. -/
theorem run_not_acceptable_406_witness :
    run ⟨some ()⟩ ⟨false, none, ⟨false, false, false⟩, none, []⟩ none =
      Except.ok [Act.setResStatus 406, Act.resEnd (some "Not Acceptable.\n")] :=
  (run_not_acceptable_406 ⟨some ()⟩ ⟨false, none, ⟨false, false, false⟩, none, []⟩
    none rfl).1

/-- C5: when the flattened `last-event-id` header is the literal string
`error`, `run` ends the response with status 400 whatever the options,
before any channel resolution: the trace is the same for every options
value and contains no channel-derived action. -/
theorem run_last_event_id_error_rejected (h : Handler) (req : Request)
    (pa : List Act) (g : Grip)
    (hacc : req.acceptsEventStream = true)
    (hdet : detectGrip h.connectGrip req = Except.ok (pa, g))
    (hsig : (g.isProxied && (g.needsSigned && !g.isSigned)) = false)
    (hlei : req.lastEventId = some "error") :
    ∀ opts : Option IHandlerOptions,
      run h req opts = Except.ok (pa ++ [Act.setResStatus 400,
        Act.resEnd (some "last-event-id header may not be 'error'.\n")]) := by
  intro opts
  rw [run_ok h req opts pa g hacc hdet]
  unfold runAfterGrip
  rw [hsig, if_neg Bool.false_ne_true, if_pos hlei]

/-- Witness for C5: a request carrying resume header `error` and a
query channel is still rejected with 400. -/
theorem run_last_event_id_error_rejected_witness :
    run ⟨some ()⟩
      ⟨true, some ⟨false, false, false⟩, ⟨false, false, false⟩, some "error",
        [("channel", "a")]⟩ (some ⟨some ["a"], none⟩) =
      Except.ok [Act.setResStatus 400,
        Act.resEnd (some "last-event-id header may not be 'error'.\n")] :=
  run_last_event_id_error_rejected ⟨some ()⟩
    ⟨true, some ⟨false, false, false⟩, ⟨false, false, false⟩, some "error",
      [("channel", "a")]⟩ [] ⟨false, false, false⟩ rfl rfl rfl rfl
    (some ⟨some ["a"], none⟩)

/-- C9: the constructor called with null configuration never assigns
`connectGrip`, and `run` fails with the `TypeError` of dereferencing the
unassigned `connectGrip` — producing no HTTP response — exactly when
negotiation passed, the request carries no populated grip field, and
`connectGrip` was never assigned. -/
theorem run_connectGrip_reachability :
    ctorConnectGrip CtorParams.nullParam = none ∧
    ∀ (h : Handler) (req : Request) (opts : Option IHandlerOptions),
      run h req opts = Except.error RunErr.connectGripUndefined ↔
        (req.acceptsEventStream = true ∧ req.grip = none ∧ h.connectGrip = none) := by
  refine ⟨rfl, ?_⟩
  intro h req opts
  unfold run
  cases hacc : req.acceptsEventStream with
  | false => simp
  | true =>
    cases hg : req.grip with
    | some g2 => simp [detectGrip, hg, Except.map]
    | none =>
      cases hcg : h.connectGrip with
      | some u => simp [detectGrip, hg, hcg, Except.map]
      | none => simp [detectGrip, hg, hcg, Except.map]

/-- Witness for C9: a handler built from the null configuration crashes
on a grip-less request that passes negotiation. -/
theorem run_connectGrip_reachability_witness :
    run ⟨ctorConnectGrip CtorParams.nullParam⟩
      ⟨true, none, ⟨false, false, false⟩, none, []⟩ none =
      Except.error RunErr.connectGripUndefined :=
  (run_connectGrip_reachability.2 ⟨ctorConnectGrip CtorParams.nullParam⟩
    ⟨true, none, ⟨false, false, false⟩, none, []⟩ none).mpr ⟨rfl, rfl, rfl⟩

/-- C1 evaluation: on a proxied request that requires a signature and is
unsigned, `run` assigns 403 to the request object (`req.statusCode` in
the source) and ends the response, but never sets the response status:
the trace contains `setReqStatus 403` and no `setResStatus` at all, so
the status actually sent on the response is the default, not 403.  No
subscription or grip-channel action occurs. -/
theorem run_unsigned_proxied_request_status_eval :
    run ⟨some ()⟩ ⟨true, some ⟨true, true, false⟩, ⟨true, true, false⟩, none, []⟩
      none =
      Except.ok [Act.setReqStatus 403,
        Act.resEnd (some "GRIP Signature Invalid.\n")] := by
  rfl

/-- C2 evaluation: with query-sourcing enabled by the boolean `true` and
an empty resolved channel set, the resolved parameter name is `channel`,
yet the 400 message interpolates the string coercion of the boolean flag
and names `?true`, not the resolved parameter name. -/
theorem run_no_channels_boolean_query_message_eval :
    channelParamNameOf (ChannelsFromQuery.bool true) = "channel" ∧
    run ⟨some ()⟩ ⟨true, some ⟨false, false, false⟩, ⟨false, false, false⟩, none, []⟩
      (some ⟨some [], some (ChannelsFromQuery.bool true)⟩) =
      Except.ok [Act.setResStatus 400,
        Act.resEnd (some ("No specified channels. Specify the channels to read from using the ?true query parameter.\n"))] := by
  exact ⟨rfl, rfl⟩

/-- C4: every accepted subscription request gets response status 200 and
exactly one write before any other delivery action, and that write is
the single synthetic `stream-open` frame with empty data — in the
proxy-hold mode and in the direct-pipe mode alike. -/
theorem run_handshake_stream_open (h : Handler) (req : Request)
    (opts : Option IHandlerOptions) (pa : List Act) (g : Grip)
    (hacc : req.acceptsEventStream = true)
    (hdet : detectGrip h.connectGrip req = Except.ok (pa, g))
    (hsig : (g.isProxied && (g.needsSigned && !g.isSigned)) = false)
    (hlei : req.lastEventId ≠ some "error")
    (hch : (resolveChannels opts req).length ≠ 0) :
    ∃ tr : List Act, run h req opts = Except.ok tr ∧
      Act.setResStatus 200 ∈ tr ∧
      writesOf tr = [[encodeEvent streamOpenEvent]] ∧
      (deliveryActs tr).head? = some (Act.write [encodeEvent streamOpenEvent]) ∧
      encodeEvent streamOpenEvent = { eventType := "stream-open", data := "" } := by
  refine ⟨runAfterGrip pa g opts req, run_ok h req opts pa g hacc hdet, ?_⟩
  unfold runAfterGrip
  rw [hsig, if_neg Bool.false_ne_true, if_neg hlei, if_neg hch]
  rcases detectGrip_actions h.connectGrip req pa g hdet with rfl | rfl <;>
    cases hprox : g.isProxied <;>
      simp [writesOf, deliveryActs, joinEncodedEvents, encodeEvent, streamOpenEvent]

/-- Witness for C4 on a concrete accepted direct-mode request. -/
theorem run_handshake_stream_open_witness :
    ∃ tr : List Act,
      run ⟨some ()⟩
        ⟨true, some ⟨false, false, false⟩, ⟨false, false, false⟩, none,
          [("channel", "a")]⟩ none = Except.ok tr ∧
      Act.setResStatus 200 ∈ tr ∧
      writesOf tr = [[encodeEvent streamOpenEvent]] ∧
      (deliveryActs tr).head? = some (Act.write [encodeEvent streamOpenEvent]) ∧
      encodeEvent streamOpenEvent = { eventType := "stream-open", data := "" } :=
  run_handshake_stream_open ⟨some ()⟩
    ⟨true, some ⟨false, false, false⟩, ⟨false, false, false⟩, none,
      [("channel", "a")]⟩ none [] ⟨false, false, false⟩ rfl rfl rfl
    (by decide) (by decide)

/-- C8: every accepted proxied request produces a hold directive bound
to exactly the resolved channel set, with the synthetic `keep-alive`
frame (empty data) at the fixed interval as heartbeat, and the local
response ends immediately after the handshake write; no local bus
subscription is created. -/
theorem run_proxy_hold_trace (h : Handler) (req : Request)
    (opts : Option IHandlerOptions) (pa : List Act) (g : Grip)
    (hacc : req.acceptsEventStream = true)
    (hdet : detectGrip h.connectGrip req = Except.ok (pa, g))
    (hsig : (g.isProxied && (g.needsSigned && !g.isSigned)) = false)
    (hlei : req.lastEventId ≠ some "error")
    (hch : (resolveChannels opts req).length ≠ 0)
    (hprox : g.isProxied = true) :
    ∃ tr : List Act, run h req opts = Except.ok tr ∧
      tr = pa ++ [Act.setResStatus 200,
        Act.gripStartInstruct,
        Act.gripSetHoldStream,
        Act.gripAddChannel (resolveChannels opts req),
        Act.gripSetKeepAlive (encodeEvent keepAliveEvent) KEEP_ALIVE_TIMEOUT,
        Act.write [encodeEvent streamOpenEvent],
        Act.resEnd none] ∧
      (∀ cs : List String, Act.subscribe cs ∉ tr) ∧
      encodeEvent keepAliveEvent = { eventType := "keep-alive", data := "" } := by
  refine ⟨runAfterGrip pa g opts req, run_ok h req opts pa g hacc hdet, ?_⟩
  unfold runAfterGrip
  rw [hsig, if_neg Bool.false_ne_true, if_neg hlei, if_neg hch, if_pos hprox]
  rcases detectGrip_actions h.connectGrip req pa g hdet with rfl | rfl <;>
    simp [joinEncodedEvents, encodeEvent, keepAliveEvent]

/-- Witness for C8 on a concrete accepted proxied request. -/
theorem run_proxy_hold_trace_witness :
    ∃ tr : List Act,
      run ⟨some ()⟩
        ⟨true, some ⟨true, false, false⟩, ⟨true, false, false⟩, none,
          [("channel", "a")]⟩ none = Except.ok tr ∧
      tr = [] ++ [Act.setResStatus 200,
        Act.gripStartInstruct,
        Act.gripSetHoldStream,
        Act.gripAddChannel (resolveChannels none
          ⟨true, some ⟨true, false, false⟩, ⟨true, false, false⟩, none,
            [("channel", "a")]⟩),
        Act.gripSetKeepAlive (encodeEvent keepAliveEvent) KEEP_ALIVE_TIMEOUT,
        Act.write [encodeEvent streamOpenEvent],
        Act.resEnd none] ∧
      (∀ cs : List String, Act.subscribe cs ∉ tr) ∧
      encodeEvent keepAliveEvent = { eventType := "keep-alive", data := "" } :=
  run_proxy_hold_trace ⟨some ()⟩
    ⟨true, some ⟨true, false, false⟩, ⟨true, false, false⟩, none,
      [("channel", "a")]⟩ none [] ⟨true, false, false⟩ rfl rfl rfl
    (by decide) (by decide) rfl

/-- C7: the resolved channel list starts from the configured channels;
when none are configured or query-sourcing is enabled, every value of
the resolved query parameter (default name `channel`, otherwise the
option's string form) not already present is appended, and the appended
values are duplicate-free, disjoint from the configured list, and keep
the query's first-seen order; otherwise the configured channels are
returned unchanged. -/
theorem resolveChannels_merge_spec (opts : Option IHandlerOptions) (req : Request) :
    (channelParamNameOf (ChannelsFromQuery.bool true) = "channel" ∧
     channelParamNameOf (ChannelsFromQuery.bool false) = "channel" ∧
     ∀ s : String, channelParamNameOf (ChannelsFromQuery.str s) = s) ∧
    (((configuredChannels opts).length = 0 ∨
        readChannelsFromQueryOf opts ≠ ChannelsFromQuery.bool false) →
      resolveChannels opts req =
        configuredChannels opts ++
          extraChannels (configuredChannels opts)
            (queryGetAll req.query
              (channelParamNameOf (readChannelsFromQueryOf opts))) ∧
      (∀ x ∈ extraChannels (configuredChannels opts)
          (queryGetAll req.query
            (channelParamNameOf (readChannelsFromQueryOf opts))),
        x ∈ queryGetAll req.query
            (channelParamNameOf (readChannelsFromQueryOf opts)) ∧
        x ∉ configuredChannels opts) ∧
      (extraChannels (configuredChannels opts)
        (queryGetAll req.query
          (channelParamNameOf (readChannelsFromQueryOf opts)))).Nodup ∧
      List.Sublist
        (extraChannels (configuredChannels opts)
          (queryGetAll req.query
            (channelParamNameOf (readChannelsFromQueryOf opts))))
        (queryGetAll req.query
          (channelParamNameOf (readChannelsFromQueryOf opts)))) ∧
    (¬((configuredChannels opts).length = 0 ∨
        readChannelsFromQueryOf opts ≠ ChannelsFromQuery.bool false) →
      resolveChannels opts req = configuredChannels opts) := by
  refine ⟨⟨rfl, rfl, fun s => rfl⟩, ?_, ?_⟩
  · intro hcond
    refine ⟨?_, fun x hx => extraChannels_mem _ _ x hx,
      extraChannels_nodup _ _, extraChannels_sublist _ _⟩
    unfold resolveChannels
    rw [if_pos hcond]
    exact addUniqueChannels_eq _ _
  · intro hcond
    unfold resolveChannels
    rw [if_neg hcond]

/-- Witness for C7: one configured channel, a string-named query
parameter, and query values with a duplicate and an unrelated name. -/
theorem resolveChannels_merge_spec_witness :
    resolveChannels (some ⟨some ["a"], some (ChannelsFromQuery.str "ch")⟩)
      ⟨true, none, ⟨false, false, false⟩, none,
        [("ch", "a"), ("ch", "b"), ("x", "c"), ("ch", "b")]⟩ = ["a", "b"] := by
  have h := ((resolveChannels_merge_spec
    (some ⟨some ["a"], some (ChannelsFromQuery.str "ch")⟩)
    ⟨true, none, ⟨false, false, false⟩, none,
      [("ch", "a"), ("ch", "b"), ("x", "c"), ("ch", "b")]⟩).2.1
    (Or.inr (by decide))).1
  rw [h]
  rfl
